import Mathlib

/-!
Verification of the single-connection request handler of `server.py`
(a minimal HTTP/1.1 static file server).  Strings from the wire are
modelled as `List Char` (the server decodes bytes as ISO-8859-1, a 1:1
byte-to-character map), file bodies as `List Nat` (byte values).
-/

set_option autoImplicit false

namespace Server

/-- Convert a Lean string literal to the `List Char` representation used
throughout the model. -/
def toL (s : String) : List Char := s.toList

/-- The byte values of a Python bytes literal such as `b'Not Found'`
(all call sites use ASCII text). -/
def bstr (s : String) : List Nat := s.toList.map Char.toNat

/-- The ASCII bytes of a character sequence. -/
def asciiBytes (s : List Char) : List Nat := s.map Char.toNat

/-- Helper for `startswith`, recursing on the prefix. -/
def startswithAux : List Char → List Char → Bool
  | [], _ => true
  | _ :: _, [] => false
  | p :: ps, c :: cs => (c == p) && startswithAux ps cs

/-- Python `s.startswith(p)`. -/
def startswith (s pre : List Char) : Bool := startswithAux pre s

/-- Python `s.lstrip('/')`: drops every leading `'/'`. -/
def lstripSlashes (s : List Char) : List Char := s.dropWhile (fun c => c == '/')

/-- A character counted as whitespace by Python `str.split()`.  The request
text is ISO-8859-1-decoded, so every character is below `\xff`; in that
range Python's Unicode whitespace is exactly the ASCII set `' \t\n\r\x0b\x0c'`
plus the separators `\x1c`-`\x1f`, NEL `\x85` and NBSP `\xa0`. -/
def isPySpace (c : Char) : Bool :=
  (c == ' ') || (c == '\t') || (c == '\n') || (c == '\r') || (c == '\x0b') ||
    (c == '\x0c') || (c == '\x1c') || (c == '\x1d') || (c == '\x1e') ||
    (c == '\x1f') || (c == '\x85') || (c == '\xa0')

/-- Helper for `splitWs`: `cur` holds the characters of the current word
in reverse. -/
def splitWsAux : List Char → List Char → List (List Char)
  | cur, [] => if cur = [] then [] else [cur.reverse]
  | cur, c :: rest =>
    if isPySpace c then
      if cur = [] then splitWsAux [] rest else cur.reverse :: splitWsAux [] rest
    else splitWsAux (c :: cur) rest

/-- Python `str.split()` with no argument: splits on runs of whitespace and
drops empty tokens. -/
def splitWs (s : List Char) : List (List Char) := splitWsAux [] s

/-- The first line of the request text: the prefix up to the first `"\r\n"`
(Python `request_text.split('\r\n')[0]`). -/
def firstLine : List Char → List Char
  | [] => []
  | [c] => [c]
  | c :: d :: rest =>
    if c = '\r' ∧ d = '\n' then [] else c :: firstLine (d :: rest)

/-- `HTTPWorker._parse_request_line`: `none` models the raised `ValueError`
(empty first line, or fewer than three whitespace-separated tokens);
otherwise the first three tokens `(method, target, version)`. -/
def parseRequestLine (request : List Char) : Option (List Char × List Char × List Char) :=
  let line := firstLine request
  if line = [] then none
  else
    match splitWs line with
    | m :: p :: v :: _ => some (m, p, v)
    | _ => none

/-- Python `s.split('/')` (always returns at least one piece). -/
def splitSlash : List Char → List (List Char)
  | [] => [[]]
  | c :: rest =>
    match splitSlash rest with
    | r :: rs => if c = '/' then [] :: r :: rs else (c :: r) :: rs
    | [] => [[]]

/-- `sep.join(pieces)`. -/
def joinSep (sep : List Char) : List (List Char) → List Char
  | [] => []
  | [l] => l
  | l :: l2 :: ls => l ++ sep ++ joinSep sep (l2 :: ls)

/-- The component loop of `posixpath.normpath`: `acc` holds the kept
components in reverse.  A `".."` is appended when the path is relative and
nothing was kept yet or the last kept component is itself `".."`; otherwise
it pops the last kept component, or is dropped at the root of an absolute
path. -/
def normComps (absFlag : Bool) : List (List Char) → List (List Char) → List (List Char)
  | acc, [] => acc.reverse
  | acc, comp :: rest =>
    if comp = [] ∨ comp = ['.'] then normComps absFlag acc rest
    else if comp ≠ ['.', '.'] ∨ (absFlag = false ∧ acc = []) ∨ acc.head? = some ['.', '.'] then
      normComps absFlag (comp :: acc) rest
    else
      match acc with
      | [] => normComps absFlag [] rest
      | _ :: acc2 => normComps absFlag acc2 rest

/-- `posixpath.normpath`: purely lexical normalization, collapsing `"."`,
empty and `".."` segments; keeps one or exactly two leading slashes. -/
def normpath (p : List Char) : List Char :=
  if p = [] then ['.']
  else
    let slashes : Nat :=
      if startswith p (toL "//") = true ∧ startswith p (toL "///") = false then 2
      else if startswith p (toL "/") = true then 1
      else 0
    let nc := normComps (slashes != 0) [] (splitSlash p)
    let out := List.replicate slashes '/' ++ joinSep ['/'] nc
    if out = [] then ['.'] else out

/-- `posixpath.join(a, b)` for a single right operand: an absolute `b`
discards `a`. -/
def pyJoin (a b : List Char) : List Char :=
  if startswith b ['/'] = true then b
  else if a = [] ∨ a.getLast? = some '/' then a ++ b
  else a ++ '/' :: b

/-- `os.path.abspath` restricted to absolute inputs, which is all this model
needs: `main` passes `os.path.abspath(args.docroot)` to every worker, so the
cwd-join step of `abspath` is the identity and only `normpath` remains. -/
def abspath (p : List Char) : List Char := normpath p

/-- Line 33 of `server.py`:
`os.path.normpath(os.path.join(self.docroot, path.lstrip('/')))`. -/
def resolveTarget (docroot target : List Char) : List Char :=
  normpath (pyJoin docroot (lstripSlashes target))

/-- Strips exactly one leading `'/'` if present. -/
def stripOneSlash : List Char → List Char
  | '/' :: rest => rest
  | s => s

/-- Modelled from the spec's words for path-resolution step 1 ("Strip a
single leading `/` from target (if present) ... join it onto documentRoot
... normalize it"), to be compared with `resolveTarget` from the source. -/
def resolveSpecStep1 (docroot target : List Char) : List Char :=
  normpath (pyJoin docroot (stripOneSlash target))

/-- `p` lies within the directory `root` in the strict lexical sense: it is
`root` itself or has `root ++ "/"` as a prefix.  (The source's containment
check is the weaker bare string-prefix test.) -/
def isUnder (root p : List Char) : Bool :=
  (p == root) || startswith p (root ++ ['/'])

/-- A filesystem entry: a regular file with its byte contents, or a
directory. -/
inductive FSNode
  | file (content : List Nat)
  | dir
deriving DecidableEq

/-- The filesystem as seen by one request: absolute path strings mapped to
their entries.  `os.path.isdir` is a `dir` entry, `os.path.exists` is any
entry, `open(...).read()` yields a file entry's contents. -/
abbrev FileSystem := List (List Char × FSNode)

def fsLookup : FileSystem → List Char → Option FSNode
  | [], _ => none
  | (q, node) :: rest, p => if p = q then some node else fsLookup rest p

/-- The data `_send_response` is called with: status code, body bytes and
the Content-Type value.  Reason phrase and Content-Length are derived at
serialization time, as in the source. -/
structure Response where
  status : Nat
  body : List Nat
  contentType : List Char
deriving DecidableEq

/-- `self._send_response(404, b'Not Found', 'text/plain')`. -/
def resp404 : Response := ⟨404, bstr "Not Found", toL "text/plain"⟩

/-- `self._send_response(405, b'Method Not Allowed', 'text/plain')`. -/
def resp405 : Response := ⟨405, bstr "Method Not Allowed", toL "text/plain"⟩

/-- `self._send_response(500, b'Internal Server Error', 'text/plain')`,
sent from the `except` wrapper. -/
def resp500 : Response := ⟨500, bstr "Internal Server Error", toL "text/plain"⟩

/-- `mimetypes.guess_type` followed by the `application/octet-stream`
default.  The MIME table itself is an external collaborator, so it is a
parameter `guess` of the handler. -/
def ctypeOf (guess : List Char → Option (List Char)) (path : List Char) : List Char :=
  match guess path with
  | some c => c
  | none => toL "application/octet-stream"

/-- The 200 response for a successfully read file (lines 47-52). -/
def serve200 (guess : List Char → Option (List Char)) (path : List Char)
    (content : List Nat) : Response :=
  ⟨200, content, ctypeOf guess path⟩

/-- `open(fullpath, 'rb')` on an existing path: a regular file is read and
served; opening a directory raises `IsADirectoryError`, which the wrapper
turns into the 500 response. -/
def openAndServe (guess : List Char → Option (List Char)) (path : List Char) :
    FSNode → Response
  | FSNode.file content => serve200 guess path content
  | FSNode.dir => resp500

/-- The decision core of `HTTPWorker.run` (lines 29-57) for a non-empty
request text: which single response is sent.  A `parseRequestLine` failure
is the raised `ValueError`, answered with 500 by the `except` wrapper. -/
def handleRequest (guess : List Char → Option (List Char)) (docroot : List Char)
    (fs : FileSystem) (request : List Char) : Response :=
  match parseRequestLine request with
  | none => resp500
  | some (m, p, _v) =>
    if m ≠ toL "GET" then resp405
    else if startswith (resolveTarget docroot p) (abspath docroot) = false then resp404
    else
      match fsLookup fs (resolveTarget docroot p) with
      | some FSNode.dir =>
        match fsLookup fs (pyJoin (resolveTarget docroot p) (toL "index.html")) with
        | none => resp404
        | some node =>
          openAndServe guess (pyJoin (resolveTarget docroot p) (toL "index.html")) node
      | some (FSNode.file content) => serve200 guess (resolveTarget docroot p) content
      | none => resp404

/-- One interaction of the receive loop with the socket: a delivered chunk
(already decoded, one character per byte), the 2-second inactivity timeout,
or an I/O error raised by `recv`. -/
inductive RecvEvent
  | chunk (data : List Char)
  | timeout
  | ioError
deriving DecidableEq

/-- The accumulated buffer contains the header terminator `"\r\n\r\n"`. -/
def hasHeaderEnd : List Char → Bool
  | '\r' :: '\n' :: '\r' :: '\n' :: _ => true
  | _ :: rest => hasHeaderEnd rest
  | [] => false

/-- The loop of `_recv_request`: accumulate chunks until the terminator
appears; an empty chunk (peer closed), exhausted stream or timeout ends the
loop with the data so far; any other I/O error returns `none` (Python
`None`). -/
def recvLoop : List Char → List RecvEvent → Option (List Char)
  | data, events =>
    if hasHeaderEnd data then some data
    else
      match events with
      | [] => some data
      | RecvEvent.chunk c :: rest => if c = [] then some data else recvLoop (data ++ c) rest
      | RecvEvent.timeout :: _ => some data
      | RecvEvent.ioError :: _ => none

/-- `HTTPWorker._recv_request`: `none` for an I/O error, `some []` when no
bytes were ever received (Python returns `''`). -/
def recvRequest (events : List RecvEvent) : Option (List Char) := recvLoop [] events

/-- An observable socket action of the worker. -/
inductive SockOp
  | send (header : List Char) (body : List Nat)
  | close
deriving DecidableEq

/-- Reason-phrase table of `_send_response`, defaulting to `'OK'`. -/
def reasonFor (code : Nat) : List Char :=
  if code = 200 then toL "OK"
  else if code = 404 then toL "Not Found"
  else if code = 500 then toL "Internal Server Error"
  else if code = 405 then toL "Method Not Allowed"
  else toL "OK"

/-- Decimal digit to character. -/
def digitChar : Nat → Char
  | 0 => '0' | 1 => '1' | 2 => '2' | 3 => '3' | 4 => '4'
  | 5 => '5' | 6 => '6' | 7 => '7' | 8 => '8' | 9 => '9'
  | _ => '*'

/-- Least-significant-first decimal digits of `n`, with explicit fuel so
that the recursion is structural (`fuel ≥ n` suffices). -/
def natDigitsAux : Nat → Nat → List Char
  | _, 0 => []
  | 0, _ + 1 => []
  | n + 1, fuel + 1 => digitChar ((n + 1) % 10) :: natDigitsAux ((n + 1) / 10) fuel

/-- Decimal representation of `n`, as produced by Python `str(n)` inside
the f-strings of `_send_response`. -/
def natToStr (n : Nat) : List Char :=
  if n = 0 then ['0'] else (natDigitsAux n (n + 1)).reverse

/-- `HTTPWorker._send_response` (lines 88-100): the header text written
before the body, and the body bytes written after it.  `date` stands for
the `http_date()` value of the current moment. -/
def serializeResponse (date : List Char) (r : Response) : List Char × List Nat :=
  let headerLines : List (List Char) := [
    toL "HTTP/1.1 " ++ natToStr r.status ++ [' '] ++ reasonFor r.status,
    toL "Date: " ++ date,
    toL "Server: NikkiGorskiServer/1.0",
    toL "Content-Type: " ++ r.contentType,
    toL "Content-Length: " ++ natToStr r.body.length,
    toL "\r\n"]
  (joinSep (toL "\r\n") headerLines, r.body)

/-- The whole of `HTTPWorker.run` as the sequence of socket operations it
performs.  `sendOk1` is whether `sendall` of the main response succeeds,
`sendOk2` whether the best-effort `sendall` of the fallback 500 succeeds;
the `finally` block closes the socket in every case (an empty or failed
receive closes once early at line 27 and again in `finally`). -/
def runWorker (guess : List Char → Option (List Char)) (docroot : List Char)
    (fs : FileSystem) (date : List Char) (events : List RecvEvent)
    (sendOk1 sendOk2 : Bool) : List SockOp :=
  match recvRequest events with
  | none => [SockOp.close, SockOp.close]
  | some req =>
    if req = [] then [SockOp.close, SockOp.close]
    else
      let r := handleRequest guess docroot fs req
      if sendOk1 then
        [SockOp.send (serializeResponse date r).fst (serializeResponse date r).snd,
          SockOp.close]
      else if sendOk2 then
        [SockOp.send (serializeResponse date resp500).fst
          (serializeResponse date resp500).snd, SockOp.close]
      else [SockOp.close]

/-- Character sequence without `'\r'` (so it cannot contain a CRLF). -/
def noCR (s : List Char) : Bool := s.all (fun c => !(c == '\r'))

/-- Split header text on `"\r\n"` line boundaries (the inverse direction of
`joinSep (toL "\r\n")`). -/
def splitCRLF : List Char → List (List Char)
  | [] => [[]]
  | [c] => [[c]]
  | c :: d :: rest =>
    if c = '\r' ∧ d = '\n' then [] :: splitCRLF rest
    else
      match splitCRLF (d :: rest) with
      | r :: rs => (c :: r) :: rs
      | [] => [[c]]

/-- Value of a decimal digit character. -/
def digitVal (c : Char) : Nat :=
  if c = '0' then 0 else if c = '1' then 1 else if c = '2' then 2
  else if c = '3' then 3 else if c = '4' then 4 else if c = '5' then 5
  else if c = '6' then 6 else if c = '7' then 7 else if c = '8' then 8
  else if c = '9' then 9 else 0

/-- Numeric value of least-significant-first digits. -/
def parseRev : List Char → Nat
  | [] => 0
  | c :: rest => digitVal c + 10 * parseRev rest

/-- Numeric value of most-significant-first digits. -/
def parseDigits (s : List Char) : Nat := parseRev s.reverse

/-- The first header line carrying `Content-Length`, parsed. -/
def findCLLine : List (List Char) → Option Nat
  | [] => none
  | l :: rest =>
    if startswith l (toL "Content-Length: ") = true then
      some (parseDigits (l.drop (toL "Content-Length: ").length))
    else findCLLine rest

/-- Read the Content-Length value back out of serialized header text. -/
def extractCL (header : List Char) : Option Nat := findCLLine (splitCRLF header)

/-! Concrete fixtures used by the witness and counterexample theorems. -/

/-- A MIME table mapping nothing, so every file defaults to
`application/octet-stream`. -/
def guessNone : List Char → Option (List Char) := fun _ => none

/-- A fixed `http_date()` output. -/
def dateC : List Char := toL "Mon, 01 Jan 2024 00:00:00 GMT"

/-- Document root `/srv/www` with a sibling directory `/srv/www2` that
shares it as a string prefix. -/
def fsEscape : FileSystem :=
  [(toL "/srv/www", FSNode.dir), (toL "/srv/www2", FSNode.dir),
   (toL "/srv/www2/secret.txt", FSNode.file (bstr "sec"))]

/-- Document root whose subdirectory `d` contains a directory (not a file)
named `index.html`. -/
def fsIdxDir : FileSystem :=
  [(toL "/srv/www", FSNode.dir), (toL "/srv/www/d", FSNode.dir),
   (toL "/srv/www/d/index.html", FSNode.dir)]

/-- Document root with a regular file `a.txt`, an `index.html`, and a
subdirectory `empty` with no index. -/
def fsDoc : FileSystem :=
  [(toL "/srv/www", FSNode.dir), (toL "/srv/www/a.txt", FSNode.file (bstr "hi")),
   (toL "/srv/www/index.html", FSNode.file (bstr "home page....")),
   (toL "/srv/www/empty", FSNode.dir)]

/-! Helper lemmas. -/

lemma startswith_refl (s : List Char) : startswith s s = true := by
  induction s with
  | nil => rfl
  | cons c cs ih =>
    simp only [startswith, startswithAux] at ih ⊢
    simp [ih]

lemma startswithAux_of_append (root q p : List Char)
    (h : startswithAux (root ++ q) p = true) : startswithAux root p = true := by
  induction root generalizing p with
  | nil => rfl
  | cons c cs ih =>
    cases p with
    | nil => simp [startswithAux] at h
    | cons a as =>
      simp only [List.cons_append, startswithAux, Bool.and_eq_true] at h ⊢
      exact ⟨h.1, ih as h.2⟩

lemma startswith_of_append (p root q : List Char) (h : startswith p (root ++ q) = true) :
    startswith p root = true :=
  startswithAux_of_append root q p h

lemma isUnder_startswith (root p : List Char) (h : isUnder root p = true) :
    startswith p root = true := by
  rw [isUnder, Bool.or_eq_true] at h
  rcases h with h | h
  · rw [show p = root from by simpa using h]
    exact startswith_refl root
  · exact startswith_of_append p root ['/'] h

lemma lstrip_no_slash (t : List Char) : startswith (lstripSlashes t) ['/'] = false := by
  induction t with
  | nil => rfl
  | cons c cs ih =>
    rw [lstripSlashes, List.dropWhile_cons]
    by_cases h : c = '/'
    · simpa [h, lstripSlashes] using ih
    · simp [h, startswith, startswithAux]

lemma noCR_cons (c : Char) (s : List Char) :
    noCR (c :: s) = (!(c == '\r') && noCR s) := by
  simp [noCR]

lemma noCR_append (a b : List Char) : noCR (a ++ b) = (noCR a && noCR b) := by
  simp [noCR, Bool.and_comm]

lemma splitCRLF_peel (a rest : List Char) (h : noCR a = true) :
    splitCRLF (a ++ '\r' :: '\n' :: rest) = a :: splitCRLF rest := by
  induction a with
  | nil =>
    show splitCRLF ('\r' :: '\n' :: rest) = [] :: splitCRLF rest
    simp [splitCRLF]
  | cons c cs ih =>
    rw [noCR_cons, Bool.and_eq_true] at h
    have hc : c ≠ '\r' := by
      intro e
      rw [e] at h
      simpa using h.1
    cases hsplit : cs ++ '\r' :: '\n' :: rest with
    | nil => simp at hsplit
    | cons d t =>
      show splitCRLF (c :: (cs ++ '\r' :: '\n' :: rest)) = (c :: cs) :: splitCRLF rest
      rw [hsplit]
      simp only [splitCRLF]
      rw [if_neg (fun hcd => hc hcd.1), ← hsplit, ih h.2]

lemma digitVal_digitChar : ∀ d : Nat, d < 10 → digitVal (digitChar d) = d := by decide

lemma parseRev_natDigitsAux : ∀ fuel n : Nat, n ≤ fuel →
    parseRev (natDigitsAux n fuel) = n := by
  intro fuel
  induction fuel with
  | zero =>
    intro n hn
    obtain rfl : n = 0 := Nat.le_zero.mp hn
    rfl
  | succ f ih =>
    intro n hn
    cases n with
    | zero => rfl
    | succ k =>
      show parseRev (digitChar ((k + 1) % 10) :: natDigitsAux ((k + 1) / 10) f) = k + 1
      rw [parseRev, digitVal_digitChar _ (Nat.mod_lt _ (by norm_num)),
        ih _ (by omega)]
      omega

lemma parseDigits_natToStr (n : Nat) : parseDigits (natToStr n) = n := by
  rw [natToStr]
  by_cases h : n = 0
  · rw [if_pos h, h]
    decide
  · rw [if_neg h, parseDigits, List.reverse_reverse]
    exact parseRev_natDigitsAux (n + 1) n (Nat.le_succ n)

lemma digitChar_ne_cr : ∀ d : Nat, (digitChar d == '\r') = false := by
  intro d
  unfold digitChar
  split <;> rfl

lemma noCR_natDigitsAux : ∀ fuel n : Nat, noCR (natDigitsAux n fuel) = true := by
  intro fuel
  induction fuel with
  | zero => intro n; cases n <;> rfl
  | succ f ih =>
    intro n
    cases n with
    | zero => rfl
    | succ k =>
      show noCR (digitChar ((k + 1) % 10) :: natDigitsAux ((k + 1) / 10) f) = true
      rw [noCR_cons, digitChar_ne_cr, ih]
      rfl

lemma noCR_natToStr (n : Nat) : noCR (natToStr n) = true := by
  rw [natToStr]
  by_cases h : n = 0
  · rw [if_pos h]; decide
  · rw [if_neg h, show noCR (natDigitsAux n (n + 1)).reverse = noCR (natDigitsAux n (n + 1))
      from by simp [noCR]]
    exact noCR_natDigitsAux (n + 1) n

lemma noCR_reasonFor (c : Nat) : noCR (reasonFor c) = true := by
  rw [reasonFor]
  split_ifs <;> decide

lemma sw_http (x y z : List Char) :
    startswith (toL "HTTP/1.1 " ++ x ++ y ++ z) (toL "Content-Length: ") = false := rfl

lemma sw_date (x : List Char) :
    startswith (toL "Date: " ++ x) (toL "Content-Length: ") = false := rfl

lemma sw_server :
    startswith (toL "Server: NikkiGorskiServer/1.0") (toL "Content-Length: ") = false := rfl

lemma sw_ctype (x : List Char) :
    startswith (toL "Content-Type: " ++ x) (toL "Content-Length: ") = false := rfl

lemma sw_cl (x : List Char) :
    startswith (toL "Content-Length: " ++ x) (toL "Content-Length: ") = true := rfl

lemma drop_cl (x : List Char) :
    (toL "Content-Length: " ++ x).drop (toL "Content-Length: ").length = x := rfl

lemma extract_step (a rest : List Char) (h : noCR a = true)
    (hs : startswith a (toL "Content-Length: ") = false) :
    extractCL (a ++ '\r' :: '\n' :: rest) = extractCL rest := by
  rw [extractCL, splitCRLF_peel a rest h]
  simp only [findCLLine, hs]
  rfl

lemma extract_hit (x rest : List Char) (h : noCR x = true) :
    extractCL ((toL "Content-Length: " ++ x) ++ '\r' :: '\n' :: rest) =
      some (parseDigits x) := by
  rw [extractCL, splitCRLF_peel _ rest (by rw [noCR_append, h]; decide)]
  simp only [findCLLine, sw_cl, drop_cl, if_pos]

/-- Round-trip law at the header level: the Content-Length line of the
serialized header parses back to exactly the body's byte length, for any
response and any CR-free date and Content-Type. -/
lemma extractCL_serialize (date : List Char) (r : Response)
    (h1 : noCR date = true) (h2 : noCR r.contentType = true) :
    extractCL (serializeResponse date r).fst = some r.body.length := by
  have hL1 : noCR (toL "HTTP/1.1 " ++ natToStr r.status ++ [' '] ++
      reasonFor r.status) = true := by
    rw [noCR_append, noCR_append, noCR_append, noCR_natToStr, noCR_reasonFor]
    decide
  have hL2 : noCR (toL "Date: " ++ date) = true := by
    rw [noCR_append, h1]; decide
  have hL4 : noCR (toL "Content-Type: " ++ r.contentType) = true := by
    rw [noCR_append, h2]; decide
  have hc2 : toL "\r\n" = ['\r', '\n'] := rfl
  have e : (serializeResponse date r).fst
      = (toL "HTTP/1.1 " ++ natToStr r.status ++ [' '] ++ reasonFor r.status) ++
        '\r' :: '\n' ::
        ((toL "Date: " ++ date) ++ '\r' :: '\n' ::
        (toL "Server: NikkiGorskiServer/1.0" ++ '\r' :: '\n' ::
        ((toL "Content-Type: " ++ r.contentType) ++ '\r' :: '\n' ::
        ((toL "Content-Length: " ++ natToStr r.body.length) ++ '\r' :: '\n' ::
          ['\r', '\n'])))) := by
    simp [serializeResponse, joinSep, hc2]
  rw [e, extract_step _ _ hL1 (sw_http _ _ _), extract_step _ _ hL2 (sw_date _),
    extract_step _ _ (by decide) sw_server, extract_step _ _ hL4 (sw_ctype _),
    extract_hit _ _ (noCR_natToStr _), parseDigits_natToStr]

lemma noCR_ctypeOf (guess : List Char → Option (List Char))
    (hg : ∀ q c, guess q = some c → noCR c = true) (path : List Char) :
    noCR (ctypeOf guess path) = true := by
  cases hq : guess path with
  | some c =>
    rw [ctypeOf, hq]
    exact hg _ _ hq
  | none =>
    rw [ctypeOf, hq]
    decide

/-- Case analysis on the handler: every response is a successful 200 serve
or one of the three fixed error responses. -/
lemma handle_cases (guess : List Char → Option (List Char)) (d : List Char)
    (fs : FileSystem) (req : List Char) :
    (∃ path content, handleRequest guess d fs req = serve200 guess path content) ∨
      handleRequest guess d fs req = resp404 ∨
      handleRequest guess d fs req = resp405 ∨
      handleRequest guess d fs req = resp500 := by
  unfold handleRequest openAndServe
  repeat' split
  all_goals
    first
    | exact Or.inl ⟨_, _, rfl⟩
    | exact Or.inr (Or.inl rfl)
    | exact Or.inr (Or.inr (Or.inl rfl))
    | exact Or.inr (Or.inr (Or.inr rfl))

lemma noCR_handle_ctype (guess : List Char → Option (List Char)) (d : List Char)
    (fs : FileSystem) (req : List Char)
    (hg : ∀ q c, guess q = some c → noCR c = true) :
    noCR (handleRequest guess d fs req).contentType = true := by
  rcases handle_cases guess d fs req with ⟨path, content, hh⟩ | hh | hh | hh <;> rw [hh]
  · exact noCR_ctypeOf guess hg path
  · decide
  · decide
  · decide

/-- Every path through `run` ends in the `finally` close. -/
lemma runWorker_last_close (guess : List Char → Option (List Char)) (d : List Char)
    (fs : FileSystem) (date : List Char) (events : List RecvEvent) (s1 s2 : Bool) :
    (runWorker guess d fs date events s1 s2).getLast? = some SockOp.close := by
  unfold runWorker
  cases hr : recvRequest events with
  | none => rfl
  | some req =>
    by_cases h : req = []
    · subst h; rfl
    · cases s1 <;> cases s2 <;> simp [h]

/-! Claim theorems. -/

/-- C1 (amended): a GET whose resolved candidate fails the source's
containment check — the bare string-prefix test `startswith fullpath
(abspath docroot)` — is answered with the 404 response (so never 200 and
never 403, and no file body is served); moreover no response of the handler
ever has status 403.  The bare prefix test is weaker than true containment:
see the counterexample. -/
theorem c1_prefix_containment :
    (∀ (guess : List Char → Option (List Char)) (docroot : List Char) (fs : FileSystem)
        (req m p v : List Char),
        parseRequestLine req = some (m, p, v) → m = toL "GET" →
        startswith (resolveTarget docroot p) (abspath docroot) = false →
        handleRequest guess docroot fs req = resp404) ∧
    (∀ (guess : List Char → Option (List Char)) (docroot : List Char) (fs : FileSystem)
        (req : List Char), (handleRequest guess docroot fs req).status ≠ 403) := by
  constructor
  · intro guess d fs req m p v hp hm hsw
    unfold handleRequest
    rw [hp]
    simp [hm, hsw]
  · intro guess d fs req
    rcases handle_cases guess d fs req with ⟨path, content, hh⟩ | hh | hh | hh <;>
      rw [hh] <;> simp [serve200, resp404, resp405, resp500]

/-- C1 counterexample: with docroot `/srv/www` and target
`/../www2/secret.txt`, the normalized candidate `/srv/www2/secret.txt` lies
outside the document root, yet the handler serves the file with status 200,
because the bare string-prefix check accepts the sibling directory
`/srv/www2`. -/
theorem c1_counterexample :
    isUnder (abspath (toL "/srv/www"))
        (resolveTarget (toL "/srv/www") (toL "/../www2/secret.txt")) = false ∧
    handleRequest guessNone (toL "/srv/www") fsEscape
        (toL "GET /../www2/secret.txt HTTP/1.1\r\n\r\n") =
      ⟨200, bstr "sec", toL "application/octet-stream"⟩ := by decide

/-- C1 witness: a classic traversal target resolving to `/etc/passwd` fails
the prefix check and is answered 404. -/
theorem c1_witness :
    parseRequestLine (toL "GET /../../etc/passwd HTTP/1.1\r\n\r\n") =
        some (toL "GET", toL "/../../etc/passwd", toL "HTTP/1.1") ∧
    startswith (resolveTarget (toL "/srv/www") (toL "/../../etc/passwd"))
        (abspath (toL "/srv/www")) = false ∧
    handleRequest guessNone (toL "/srv/www") fsDoc
        (toL "GET /../../etc/passwd HTTP/1.1\r\n\r\n") = resp404 :=
  ⟨by decide, by decide,
    c1_prefix_containment.1 guessNone (toL "/srv/www") fsDoc
      (toL "GET /../../etc/passwd HTTP/1.1\r\n\r\n") (toL "GET")
      (toL "/../../etc/passwd") (toL "HTTP/1.1") (by decide) rfl (by decide)⟩

/-- C6: any parsed method other than exactly `GET` is answered with the
fixed 405 plain-text response, for every filesystem, document root and MIME
table alike (so no file access can influence the outcome). -/
theorem c6_non_get_405 (guess : List Char → Option (List Char)) (docroot : List Char)
    (fs : FileSystem) (req m p v : List Char)
    (hp : parseRequestLine req = some (m, p, v)) (hm : m ≠ toL "GET") :
    handleRequest guess docroot fs req = resp405 := by
  unfold handleRequest
  rw [hp]
  simp [hm]

/-- C6 witness: lower-case `get` is not `GET` and draws the 405. -/
theorem c6_witness :
    parseRequestLine (toL "get / HTTP/1.1\r\n\r\n") =
        some (toL "get", toL "/", toL "HTTP/1.1") ∧
    toL "get" ≠ toL "GET" ∧
    handleRequest guessNone (toL "/srv/www") fsDoc (toL "get / HTTP/1.1\r\n\r\n") =
      resp405 :=
  ⟨by decide, by decide,
    c6_non_get_405 guessNone (toL "/srv/www") fsDoc (toL "get / HTTP/1.1\r\n\r\n")
      (toL "get") (toL "/") (toL "HTTP/1.1") (by decide) (by decide)⟩

/-- C9: on every code path of the worker — success, early 404/405,
malformed-request 500, silent abort, and failure of either send — the last
socket operation is the close from the `finally` block. -/
theorem c9_always_close (guess : List Char → Option (List Char)) (docroot : List Char)
    (fs : FileSystem) (date : List Char) (events : List RecvEvent) (s1 s2 : Bool) :
    (runWorker guess docroot fs date events s1 s2).getLast? = some SockOp.close :=
  runWorker_last_close guess docroot fs date events s1 s2

/-- C10: every non-200 response of the handler has status 404, 405 or 500,
a body that is exactly the ASCII bytes of that status's reason phrase, and
Content-Type `text/plain`. -/
theorem c10_error_bodies (guess : List Char → Option (List Char)) (docroot : List Char)
    (fs : FileSystem) (req : List Char)
    (h : (handleRequest guess docroot fs req).status ≠ 200) :
    ((handleRequest guess docroot fs req).status = 404 ∨
      (handleRequest guess docroot fs req).status = 405 ∨
      (handleRequest guess docroot fs req).status = 500) ∧
    (handleRequest guess docroot fs req).body =
      asciiBytes (reasonFor (handleRequest guess docroot fs req).status) ∧
    (handleRequest guess docroot fs req).contentType = toL "text/plain" := by
  rcases handle_cases guess docroot fs req with ⟨path, content, hh⟩ | hh | hh | hh
  · rw [hh] at h
    exact absurd rfl h
  · rw [hh]
    exact ⟨Or.inl rfl, by decide, rfl⟩
  · rw [hh]
    exact ⟨Or.inr (Or.inl rfl), by decide, rfl⟩
  · rw [hh]
    exact ⟨Or.inr (Or.inr rfl), by decide, rfl⟩

/-- A first line with fewer than three whitespace-separated tokens makes
`_parse_request_line` raise (covers the empty first line, whose token list
is empty). -/
lemma parse_none_of_short (req : List Char)
    (h : (splitWs (firstLine req)).length < 3) : parseRequestLine req = none := by
  simp only [parseRequestLine]
  by_cases hl : firstLine req = []
  · simp [hl]
  · rw [if_neg hl]
    cases hsp : splitWs (firstLine req) with
    | nil => rfl
    | cons a rest1 =>
      cases rest1 with
      | nil => rfl
      | cons b rest2 =>
        cases rest2 with
        | nil => rfl
        | cons c rest3 =>
          rw [hsp] at h
          simp at h
          omega

/-- C2: every send the worker performs — the main response of any status
code, or the fallback 500 — carries a header whose Content-Length value is
exactly the byte length of the body bytes written after it, provided the
date string and the MIME table values are CR-free (as `http_date` and
`mimetypes` outputs are). -/
theorem c2_content_length_exact (guess : List Char → Option (List Char))
    (docroot : List Char) (fs : FileSystem) (date : List Char)
    (events : List RecvEvent) (s1 s2 : Bool) (hdr : List Char) (body : List Nat)
    (h1 : noCR date = true) (hg : ∀ q c, guess q = some c → noCR c = true)
    (hmem : SockOp.send hdr body ∈ runWorker guess docroot fs date events s1 s2) :
    extractCL hdr = some body.length := by
  unfold runWorker at hmem
  cases hr : recvRequest events with
  | none =>
    rw [hr] at hmem
    simp at hmem
  | some req =>
    rw [hr] at hmem
    by_cases hq : req = []
    · simp [hq] at hmem
    · cases s1 with
      | true =>
        simp [hq] at hmem
        obtain ⟨e1, e2⟩ := hmem
        subst e1
        subst e2
        exact extractCL_serialize date (handleRequest guess docroot fs req) h1
          (noCR_handle_ctype guess docroot fs req hg)
      | false =>
        cases s2 with
        | true =>
          simp [hq] at hmem
          obtain ⟨e1, e2⟩ := hmem
          subst e1
          subst e2
          exact extractCL_serialize date resp500 h1 (by decide)
        | false => simp [hq] at hmem

/-- C2 witness: the 200 response for `/a.txt` (body `hi`, 2 bytes). -/
theorem c2_witness :
    extractCL (serializeResponse dateC (handleRequest guessNone (toL "/srv/www") fsDoc
        (toL "GET /a.txt HTTP/1.1\r\n\r\n"))).fst =
      some (serializeResponse dateC (handleRequest guessNone (toL "/srv/www") fsDoc
        (toL "GET /a.txt HTTP/1.1\r\n\r\n"))).snd.length :=
  c2_content_length_exact guessNone (toL "/srv/www") fsDoc dateC
    [RecvEvent.chunk (toL "GET /a.txt HTTP/1.1\r\n\r\n")] true true
    (serializeResponse dateC (handleRequest guessNone (toL "/srv/www") fsDoc
      (toL "GET /a.txt HTTP/1.1\r\n\r\n"))).fst
    (serializeResponse dateC (handleRequest guessNone (toL "/srv/www") fsDoc
      (toL "GET /a.txt HTTP/1.1\r\n\r\n"))).snd
    (by decide) (fun q c hh => Option.noConfusion hh) (by decide)

/-- C3: a GET whose target resolves to an existing regular file strictly
within the (canonical) document root is served with status 200, the file's
exact bytes as body, and a Content-Length equal to the file's byte
length. -/
theorem c3_get_file_200 (guess : List Char → Option (List Char))
    (docroot : List Char) (fs : FileSystem) (req m p v : List Char)
    (content : List Nat) (date : List Char)
    (hp : parseRequestLine req = some (m, p, v)) (hm : m = toL "GET")
    (hroot : normpath docroot = docroot)
    (hunder : isUnder docroot (resolveTarget docroot p) = true)
    (hfile : fsLookup fs (resolveTarget docroot p) = some (FSNode.file content))
    (h1 : noCR date = true) (hg : ∀ q c, guess q = some c → noCR c = true) :
    (handleRequest guess docroot fs req).status = 200 ∧
    (handleRequest guess docroot fs req).body = content ∧
    extractCL (serializeResponse date (handleRequest guess docroot fs req)).fst =
      some content.length := by
  have hsw : startswith (resolveTarget docroot p) (abspath docroot) = true := by
    rw [abspath, hroot]
    exact isUnder_startswith _ _ hunder
  have hh : handleRequest guess docroot fs req =
      serve200 guess (resolveTarget docroot p) content := by
    unfold handleRequest
    rw [hp]
    simp [hm, hsw, hfile]
  refine ⟨by rw [hh]; rfl, by rw [hh]; rfl, ?_⟩
  rw [hh]
  exact extractCL_serialize date _ h1 (noCR_ctypeOf guess hg _)

/-- C3 witness: `GET /a.txt` against `/srv/www` holding a 2-byte file. -/
theorem c3_witness :
    fsLookup fsDoc (resolveTarget (toL "/srv/www") (toL "/a.txt")) =
        some (FSNode.file (bstr "hi")) ∧
    (handleRequest guessNone (toL "/srv/www") fsDoc
        (toL "GET /a.txt HTTP/1.1\r\n\r\n")).status = 200 ∧
    (handleRequest guessNone (toL "/srv/www") fsDoc
        (toL "GET /a.txt HTTP/1.1\r\n\r\n")).body = bstr "hi" ∧
    extractCL (serializeResponse dateC (handleRequest guessNone (toL "/srv/www") fsDoc
        (toL "GET /a.txt HTTP/1.1\r\n\r\n"))).fst = some 2 :=
  ⟨by decide,
    c3_get_file_200 guessNone (toL "/srv/www") fsDoc
      (toL "GET /a.txt HTTP/1.1\r\n\r\n") (toL "GET") (toL "/a.txt") (toL "HTTP/1.1")
      (bstr "hi") dateC (by decide) rfl (by decide) (by decide) (by decide) (by decide)
      (fun q c hh => Option.noConfusion hh)⟩

/-- C4 (amended): line 33 strips ALL leading `'/'` characters from the
target (not just one), so the joined fragment never begins with `'/'` and
the join is always plain concatenation with a `'/'` separator, after which
the candidate is normalized purely lexically.  Stripping only a single
slash would let a `//`-prefixed target reset the join to an absolute path
outside the document root (see the counterexample). -/
theorem c4_strip_all_slashes (docroot target : List Char)
    (h1 : docroot ≠ []) (h2 : docroot.getLast? ≠ some '/') :
    startswith (lstripSlashes target) ['/'] = false ∧
    resolveTarget docroot target = normpath (docroot ++ '/' :: lstripSlashes target) := by
  refine ⟨lstrip_no_slash target, ?_⟩
  rw [resolveTarget, pyJoin, if_neg (by simp [lstrip_no_slash]),
    if_neg (fun hor => hor.elim h1 h2)]

/-- C4 counterexample: for target `//a` the source (strip all slashes)
resolves to `/srv/www/a`, while stripping exactly one leading slash as the
claim states would resolve to `/a` — the two disagree. -/
theorem c4_counterexample :
    resolveTarget (toL "/srv/www") (toL "//a") ≠
        resolveSpecStep1 (toL "/srv/www") (toL "//a") ∧
    resolveTarget (toL "/srv/www") (toL "//a") = toL "/srv/www/a" ∧
    resolveSpecStep1 (toL "/srv/www") (toL "//a") = toL "/a" := by decide

/-- C4 witness: the amended resolution law at docroot `/srv/www` and
target `//a`. -/
theorem c4_witness :
    startswith (lstripSlashes (toL "//a")) ['/'] = false ∧
    resolveTarget (toL "/srv/www") (toL "//a") =
      normpath (toL "/srv/www" ++ '/' :: lstripSlashes (toL "//a")) :=
  c4_strip_all_slashes (toL "/srv/www") (toL "//a") (by decide) (by decide)

/-- C5 (amended): for a GET whose contained candidate is a directory, a
regular file `index.html` directly inside it is served with status 200 and
its exact contents; if no entry named `index.html` exists there the answer
is 404.  (An `index.html` entry that exists but is a directory instead hits
the internal-error 500 path — see the counterexample.) -/
theorem c5_directory_index (guess : List Char → Option (List Char))
    (docroot : List Char) (fs : FileSystem) (req m p v : List Char)
    (hp : parseRequestLine req = some (m, p, v)) (hm : m = toL "GET")
    (hsw : startswith (resolveTarget docroot p) (abspath docroot) = true)
    (hdir : fsLookup fs (resolveTarget docroot p) = some FSNode.dir) :
    (∀ content : List Nat,
        fsLookup fs (pyJoin (resolveTarget docroot p) (toL "index.html")) =
            some (FSNode.file content) →
        (handleRequest guess docroot fs req).status = 200 ∧
        (handleRequest guess docroot fs req).body = content) ∧
    (fsLookup fs (pyJoin (resolveTarget docroot p) (toL "index.html")) = none →
        handleRequest guess docroot fs req = resp404) := by
  constructor
  · intro content hidx
    have hh : handleRequest guess docroot fs req =
        serve200 guess (pyJoin (resolveTarget docroot p) (toL "index.html")) content := by
      unfold handleRequest
      rw [hp]
      simp [hm, hsw, hdir, hidx, openAndServe]
    exact ⟨by rw [hh]; rfl, by rw [hh]; rfl⟩
  · intro hidx
    unfold handleRequest
    rw [hp]
    simp [hm, hsw, hdir, hidx]

/-- C5 counterexample: `/srv/www/d` contains an entry named `index.html`
that is itself a directory; the claim demands 404 ("otherwise"), but the
code treats the existing entry as the target, fails to `open` it, and
answers 500. -/
theorem c5_counterexample :
    fsLookup fsIdxDir (toL "/srv/www/d/index.html") = some FSNode.dir ∧
    handleRequest guessNone (toL "/srv/www") fsIdxDir
        (toL "GET /d HTTP/1.1\r\n\r\n") = resp500 ∧
    (handleRequest guessNone (toL "/srv/www") fsIdxDir
        (toL "GET /d HTTP/1.1\r\n\r\n")).status ≠ 404 := by decide

/-- C5 witness: `GET /` serves `/srv/www/index.html`, and `GET /empty`
(a directory with no index) draws 404. -/
theorem c5_witness :
    ((handleRequest guessNone (toL "/srv/www") fsDoc (toL "GET / HTTP/1.1\r\n\r\n")).status
        = 200 ∧
      (handleRequest guessNone (toL "/srv/www") fsDoc (toL "GET / HTTP/1.1\r\n\r\n")).body
        = bstr "home page....") ∧
    handleRequest guessNone (toL "/srv/www") fsDoc (toL "GET /empty HTTP/1.1\r\n\r\n")
        = resp404 :=
  ⟨(c5_directory_index guessNone (toL "/srv/www") fsDoc
      (toL "GET / HTTP/1.1\r\n\r\n") (toL "GET") (toL "/") (toL "HTTP/1.1")
      (by decide) rfl (by decide) (by decide)).1 (bstr "home page....") (by decide),
    (c5_directory_index guessNone (toL "/srv/www") fsDoc
      (toL "GET /empty HTTP/1.1\r\n\r\n") (toL "GET") (toL "/empty") (toL "HTTP/1.1")
      (by decide) rfl (by decide) (by decide)).2 (by decide)⟩

/-- C7: a non-empty request whose first line is empty or has fewer than
three whitespace-separated tokens is answered with the 500 response (not a
400-class status), which is sent and followed by the close. -/
theorem c7_malformed_500 (guess : List Char → Option (List Char))
    (docroot : List Char) (fs : FileSystem) (req date : List Char)
    (events : List RecvEvent)
    (hne : req ≠ [])
    (hmal : firstLine req = [] ∨ (splitWs (firstLine req)).length < 3)
    (hrecv : recvRequest events = some req) :
    handleRequest guess docroot fs req = resp500 ∧
    runWorker guess docroot fs date events true true =
      [SockOp.send (serializeResponse date resp500).fst
        (serializeResponse date resp500).snd, SockOp.close] := by
  have hlen : (splitWs (firstLine req)).length < 3 := by
    rcases hmal with hl | hl
    · rw [hl]
      decide
    · exact hl
  have hp : parseRequestLine req = none := parse_none_of_short req hlen
  have h500 : handleRequest guess docroot fs req = resp500 := by
    unfold handleRequest
    rw [hp]
  refine ⟨h500, ?_⟩
  unfold runWorker
  rw [hrecv]
  simp [hne, h500]

/-- C7 witness: the request text `x` followed by the header terminator. -/
theorem c7_witness :
    toL "x\r\n\r\n" ≠ [] ∧
    (splitWs (firstLine (toL "x\r\n\r\n"))).length < 3 ∧
    handleRequest guessNone (toL "/srv/www") fsDoc (toL "x\r\n\r\n") = resp500 ∧
    runWorker guessNone (toL "/srv/www") fsDoc dateC
        [RecvEvent.chunk (toL "x\r\n\r\n")] true true =
      [SockOp.send (serializeResponse dateC resp500).fst
        (serializeResponse dateC resp500).snd, SockOp.close] :=
  ⟨by decide, by decide,
    (c7_malformed_500 guessNone (toL "/srv/www") fsDoc (toL "x\r\n\r\n") dateC
      [RecvEvent.chunk (toL "x\r\n\r\n")] (by decide) (Or.inr (by decide)) (by decide)).1,
    (c7_malformed_500 guessNone (toL "/srv/www") fsDoc (toL "x\r\n\r\n") dateC
      [RecvEvent.chunk (toL "x\r\n\r\n")] (by decide) (Or.inr (by decide)) (by decide)).2⟩

/-- C8: when only empty chunks (or none at all) arrive the receive phase
yields the empty request, and whenever the receive phase ends with an I/O
error or an empty request the worker writes nothing — its whole trace is
the two closes, with no send operation. -/
theorem c8_silent_abort :
    (∀ events : List RecvEvent,
        (∀ b, RecvEvent.chunk b ∈ events → b = []) →
        recvRequest events = none ∨ recvRequest events = some []) ∧
    (∀ (guess : List Char → Option (List Char)) (docroot : List Char)
        (fs : FileSystem) (date : List Char) (events : List RecvEvent) (s1 s2 : Bool),
        recvRequest events = none ∨ recvRequest events = some [] →
        runWorker guess docroot fs date events s1 s2 =
          [SockOp.close, SockOp.close]) := by
  constructor
  · intro events hz
    cases events with
    | nil => exact Or.inr rfl
    | cons e rest =>
      cases e with
      | chunk bb =>
        have hb : bb = [] := hz bb (List.mem_cons_self _ _)
        subst hb
        exact Or.inr rfl
      | timeout => exact Or.inr rfl
      | ioError => exact Or.inl rfl
  · intro g d fs date events s1 s2 h
    rcases h with h | h
    · unfold runWorker
      rw [h]
    · unfold runWorker
      rw [h]
      rfl

/-- C8 witness: an I/O error during the read phase produces the silent
two-close trace. -/
theorem c8_witness :
    recvRequest [RecvEvent.ioError] = none ∧
    runWorker guessNone (toL "/srv/www") fsDoc dateC [RecvEvent.ioError] true true =
      [SockOp.close, SockOp.close] :=
  ⟨by decide,
    c8_silent_abort.2 guessNone (toL "/srv/www") fsDoc dateC [RecvEvent.ioError]
      true true (Or.inl (by decide))⟩

/-- C10 witness: the 404 for a missing file carries the ASCII bytes of
`Not Found` as body and `text/plain` as Content-Type. -/
theorem c10_witness :
    (handleRequest guessNone (toL "/srv/www") fsDoc
        (toL "GET /missing.png HTTP/1.1\r\n\r\n")).status ≠ 200 ∧
    (handleRequest guessNone (toL "/srv/www") fsDoc
        (toL "GET /missing.png HTTP/1.1\r\n\r\n")).body =
      asciiBytes (reasonFor (handleRequest guessNone (toL "/srv/www") fsDoc
        (toL "GET /missing.png HTTP/1.1\r\n\r\n")).status) :=
  ⟨by decide,
    (c10_error_bodies guessNone (toL "/srv/www") fsDoc
      (toL "GET /missing.png HTTP/1.1\r\n\r\n") (by decide)).2.1⟩

end Server
